import Mathlib

/-
  Verification of the expense-tracker scaffold's database-connectivity core.

  Shallow embedding of:
    - app/core/config.py   (Settings, database_url_async)
    - app/database/connection.py  (engine configuration)
    - app/main.py          (lifespan dispose, health endpoints)
    - alembic/env.py       (offline/online migration runs)

  Strings are embedded as List Char; Python ints as Int.
-/

/-- Embedding of app/core/config.py Settings: the fields loaded from the
environment, with Python str as List Char and Python int as Int. -/
structure Settings where
  ENV : List Char
  DEBUG : Bool
  DATABASE_URL : List Char
  DATABASE_POOL_MIN : Int
  DATABASE_POOL_MAX : Int
  DATABASE_TIMEOUT : Int
  SECRET_KEY : List Char
  ALGORITHM : List Char
  ACCESS_TOKEN_EXPIRE_MINUTES : Int
  REFRESH_TOKEN_EXPIRE_DAYS : Int
  LOG_LEVEL : List Char
deriving Repr, DecidableEq

/-- The literal scheme tested by config.py: "postgresql://". -/
def pgScheme : List Char := "postgresql://".toList

/-- The literal replacement scheme of config.py: "postgresql+asyncpg://". -/
def pgAsyncScheme : List Char := "postgresql+asyncpg://".toList

/-- Python str.replace(old, new, 1) for a non-empty old: replace the first
(leftmost) occurrence of old in the string, leaving the rest untouched. -/
def replaceFirst (old new : List Char) : List Char → List Char
  | [] => []
  | c :: cs =>
    if old.isPrefixOf (c :: cs) then new ++ (c :: cs).drop old.length
    else c :: replaceFirst old new cs

/-- The body of the database_url_async property of config.py, as a function of
the raw URL: if DATABASE_URL starts with "postgresql://", replace that prefix
once with "postgresql+asyncpg://"; otherwise return the URL unchanged. -/
def asyncUrlTransform (url : List Char) : List Char :=
  if pgScheme.isPrefixOf url then replaceFirst pgScheme pgAsyncScheme url
  else url

/-- Embedding of the Settings.database_url_async property of config.py. -/
def database_url_async (s : Settings) : List Char :=
  asyncUrlTransform s.DATABASE_URL

/-- A sample Settings value with the documented defaults of config.py and a
plain-scheme database URL. -/
def sampleSettings : Settings where
  ENV := "development".toList
  DEBUG := false
  DATABASE_URL := "postgresql://localhost/expenses".toList
  DATABASE_POOL_MIN := 1
  DATABASE_POOL_MAX := 20
  DATABASE_TIMEOUT := 30
  SECRET_KEY := "secret".toList
  ALGORITHM := "HS256".toList
  ACCESS_TOKEN_EXPIRE_MINUTES := 30
  REFRESH_TOKEN_EXPIRE_DAYS := 7
  LOG_LEVEL := "INFO".toList

theorem replaceFirst_append (old new rest : List Char) (h : old ≠ []) :
    replaceFirst old new (old ++ rest) = new ++ rest := by
  match old, h with
  | o :: os, _ =>
    rw [List.cons_append, replaceFirst]
    rw [if_pos]
    · rw [← List.cons_append, List.drop_left]
    · exact List.isPrefixOf_iff_prefix.mpr ⟨rest, by rw [List.cons_append]⟩

theorem pgScheme_not_prefixOf_async (rest : List Char) :
    pgScheme.isPrefixOf (pgAsyncScheme ++ rest) = false := by
  rw [Bool.eq_false_iff]
  intro h
  have hp : pgScheme <+: pgAsyncScheme ++ rest := List.isPrefixOf_iff_prefix.mp h
  have he : pgScheme = (pgAsyncScheme ++ rest).take pgScheme.length :=
    List.prefix_iff_eq_take.mp hp
  rw [List.take_append_eq_append_take] at he
  have hlen : pgScheme.length - pgAsyncScheme.length = 0 := by decide
  rw [hlen, List.take_zero, List.append_nil] at he
  exact absurd he (by decide)

theorem asyncUrlTransform_of_pg (rest : List Char) :
    asyncUrlTransform (pgScheme ++ rest) = pgAsyncScheme ++ rest := by
  rw [asyncUrlTransform, if_pos, replaceFirst_append]
  · decide
  · exact List.isPrefixOf_iff_prefix.mpr ⟨rest, rfl⟩

theorem asyncUrlTransform_of_not_pg (url : List Char)
    (h : pgScheme.isPrefixOf url = false) : asyncUrlTransform url = url := by
  rw [asyncUrlTransform, if_neg]
  rw [h]
  exact Bool.false_ne_true

/-- Claim C2: a raw URL with the plain "postgresql://" scheme is rewritten to
the async-driver variant exactly once (the rest of the URL, even if it
contains the scheme again, is untouched); an already driver-qualified URL is
returned unchanged; and the transform is idempotent on every input. -/
theorem c2_async_url_transform :
    (∀ s : Settings, ∀ rest : List Char, s.DATABASE_URL = pgScheme ++ rest →
      database_url_async s = pgAsyncScheme ++ rest) ∧
    (∀ rest : List Char,
      asyncUrlTransform (pgAsyncScheme ++ rest) = pgAsyncScheme ++ rest) ∧
    (∀ url : List Char,
      asyncUrlTransform (asyncUrlTransform url) = asyncUrlTransform url) := by
  refine ⟨?_, ?_, ?_⟩
  · intro s rest hurl
    rw [database_url_async, hurl, asyncUrlTransform_of_pg]
  · intro rest
    exact asyncUrlTransform_of_not_pg _ (pgScheme_not_prefixOf_async rest)
  · intro url
    by_cases h : pgScheme.isPrefixOf url = true
    · obtain ⟨rest, hrest⟩ := List.isPrefixOf_iff_prefix.mp h
      rw [← hrest, asyncUrlTransform_of_pg,
        asyncUrlTransform_of_not_pg _ (pgScheme_not_prefixOf_async rest)]
    · have hf : pgScheme.isPrefixOf url = false := by
        exact Bool.eq_false_iff.mpr h
      rw [asyncUrlTransform_of_not_pg url hf, asyncUrlTransform_of_not_pg url hf]

/-- Witness for C2 at a concrete URL: sampleSettings has a plain-scheme URL
and the transform rewrites it once and is idempotent there. -/
theorem c2_async_url_transform_witness :
    database_url_async sampleSettings =
      pgAsyncScheme ++ "localhost/expenses".toList ∧
    asyncUrlTransform (asyncUrlTransform "postgresql://localhost/expenses".toList) =
      asyncUrlTransform "postgresql://localhost/expenses".toList := by
  refine ⟨c2_async_url_transform.1 sampleSettings "localhost/expenses".toList (by decide), ?_⟩
  exact c2_async_url_transform.2.2 "postgresql://localhost/expenses".toList

/-- Claim C10: any URL that does not begin with the exact prefix
"postgresql://" - the short scheme "postgres://", non-postgres schemes, and
already-qualified "postgresql+asyncpg://" URLs included - is returned
completely unchanged by database_url_async; contrapositively, a URL the
transform changes must begin with "postgresql://". -/
theorem c10_only_exact_pg_rewritten :
    (∀ s : Settings, pgScheme.isPrefixOf s.DATABASE_URL = false →
      database_url_async s = s.DATABASE_URL) ∧
    (∀ url : List Char, asyncUrlTransform url ≠ url →
      pgScheme.isPrefixOf url = true) := by
  constructor
  · intro s h
    rw [database_url_async, asyncUrlTransform_of_not_pg _ h]
  · intro url hne
    by_cases h : pgScheme.isPrefixOf url = true
    · exact h
    · exact absurd (asyncUrlTransform_of_not_pg url (Bool.eq_false_iff.mpr h)) hne

/-- Witness for C10: the short scheme "postgres://" and an already qualified
URL are both left unchanged. -/
theorem c10_only_exact_pg_rewritten_witness :
    database_url_async { sampleSettings with
      DATABASE_URL := "postgres://localhost/expenses".toList } =
      "postgres://localhost/expenses".toList ∧
    database_url_async { sampleSettings with
      DATABASE_URL := "postgresql+asyncpg://localhost/expenses".toList } =
      "postgresql+asyncpg://localhost/expenses".toList := by
  constructor
  · exact c10_only_exact_pg_rewritten.1 _ (by decide)
  · exact c10_only_exact_pg_rewritten.1 _ (by decide)

/-- Embedding of the keyword arguments of the create_async_engine call in
app/database/connection.py. -/
structure EngineConfig where
  url : List Char
  echo : Bool
  future : Bool
  pool_pre_ping : Bool
  pool_size : Int
  max_overflow : Int
  jit_off : Bool
  statement_cache_size : Int
deriving Repr, DecidableEq

/-- Embedding of the module-level engine of app/database/connection.py, as a
function of the Settings it reads: url is the derived async URL, pool_size is
DATABASE_POOL_MAX, max_overflow is the literal 10, pre-ping is on, and the
server-side statement cache is disabled. DATABASE_POOL_MIN does not appear in
the source call. -/
def engine (s : Settings) : EngineConfig where
  url := database_url_async s
  echo := false
  future := true
  pool_pre_ping := true
  pool_size := s.DATABASE_POOL_MAX
  max_overflow := 10
  jit_off := true
  statement_cache_size := 0

/-- The pool errors named by the spec's error taxonomy. -/
inductive PoolError
  | poolClosed
  | poolExhausted
  | connectionError
deriving Repr, DecidableEq

/-- Modelled from the spec: the runtime state of the third-party connection
pool behind create_async_engine. The repository only configures that pool
(app/database/connection.py); its acquisition, disposal and overflow dynamics
are library code absent from src, so they are modelled from spec sections 4.2
and 7: live counts outstanding connections, closed is set by dispose,
dbReachable stands for the database being reachable at connection time. -/
structure PoolState where
  config : EngineConfig
  live : Int
  closed : Bool
  dbReachable : Bool
deriving Repr, DecidableEq

/-- Modelled from the spec: pool creation is lazy - it performs no handshake,
establishes zero connections, and succeeds for every configuration and every
database reachability (create never fails). -/
def Pool.create (cfg : EngineConfig) (reachable : Bool) : PoolState where
  config := cfg
  live := 0
  closed := false
  dbReachable := reachable

/-- Modelled from the spec: acquiring a connection fails with PoolClosedError
after dispose, with PoolExhaustedError when pool_size + max_overflow
connections are already outstanding, and with ConnectionError when the
database is unreachable at connection time (the pre-ping validates every
handout); otherwise one more live connection is handed out. -/
def Pool.acquire (p : PoolState) : Except PoolError PoolState :=
  if p.closed then .error .poolClosed
  else if p.config.pool_size + p.config.max_overflow ≤ p.live then
    .error .poolExhausted
  else if p.dbReachable then .ok { p with live := p.live + 1 }
  else .error .connectionError

/-- Modelled from the spec: returning a connection to the pool. -/
def Pool.release (p : PoolState) : PoolState :=
  { p with live := max (p.live - 1) 0 }

/-- Modelled from the spec: dispose closes all pooled connections and marks
the pool closed (engine.dispose() in the lifespan handler of app/main.py). -/
def Pool.dispose (p : PoolState) : PoolState :=
  { p with closed := true, live := 0 }

/-- The pool states reachable from creation via acquire, release, dispose. -/
inductive PoolReach (cfg : EngineConfig) (r : Bool) : PoolState → Prop
  | create : PoolReach cfg r (Pool.create cfg r)
  | acquire (p q : PoolState) : PoolReach cfg r p → Pool.acquire p = .ok q →
      PoolReach cfg r q
  | release (p : PoolState) : PoolReach cfg r p → PoolReach cfg r (Pool.release p)
  | dispose (p : PoolState) : PoolReach cfg r p → PoolReach cfg r (Pool.dispose p)

theorem poolReach_invariant {cfg : EngineConfig} {r : Bool} {p : PoolState}
    (h : PoolReach cfg r p) :
    p.config = cfg ∧ 0 ≤ p.live ∧
      p.live ≤ max (cfg.pool_size + cfg.max_overflow) 0 := by
  induction h with
  | create => exact ⟨rfl, le_refl 0, le_max_right _ 0⟩
  | acquire p q hp hacq ih =>
    obtain ⟨hc, h0, hub⟩ := ih
    rw [Pool.acquire] at hacq
    by_cases hcl : p.closed
    · rw [if_pos hcl] at hacq; exact absurd hacq (by simp)
    · rw [if_neg hcl] at hacq
      by_cases hex : p.config.pool_size + p.config.max_overflow ≤ p.live
      · rw [if_pos hex] at hacq; exact absurd hacq (by simp)
      · rw [if_neg hex] at hacq
        by_cases hreach : p.dbReachable
        · rw [if_pos hreach] at hacq
          have hq : q = { p with live := p.live + 1 } := by
            cases hacq; rfl
          subst hq
          rw [hc] at hex
          refine ⟨hc, ?_, ?_⟩
          · show (0 : Int) ≤ p.live + 1
            omega
          · show p.live + 1 ≤ max (cfg.pool_size + cfg.max_overflow) 0
            omega
        · rw [if_neg hreach] at hacq; exact absurd hacq (by simp)
  | release p hp ih =>
    obtain ⟨hc, h0, hub⟩ := ih
    refine ⟨hc, le_max_right _ 0, ?_⟩
    show max (p.live - 1) 0 ≤ max (cfg.pool_size + cfg.max_overflow) 0
    omega
  | dispose p hp ih =>
    exact ⟨ih.1, le_refl 0, le_max_right _ 0⟩

/-- Counterexample to C1 as stated: DATABASE_POOL_MIN never reaches the
engine - two Settings differing only in DATABASE_POOL_MIN produce the very
same engine configuration - and the freshly created pool holds 0 live
connections, strictly below a DATABASE_POOL_MIN of 5, so the pool is not
sized to hold at least DATABASE_POOL_MIN live connections. -/
theorem c1_pool_min_ignored_counterexample :
    engine { sampleSettings with DATABASE_POOL_MIN := 5 } = engine sampleSettings ∧
    ({ sampleSettings with DATABASE_POOL_MIN := 5 } : Settings).DATABASE_POOL_MIN ≠
      sampleSettings.DATABASE_POOL_MIN ∧
    (Pool.create (engine { sampleSettings with DATABASE_POOL_MIN := 5 }) true).live = 0 ∧
    ¬ ({ sampleSettings with DATABASE_POOL_MIN := 5 } : Settings).DATABASE_POOL_MIN ≤
      (Pool.create (engine { sampleSettings with DATABASE_POOL_MIN := 5 }) true).live := by
  refine ⟨rfl, by decide, rfl, by decide⟩

/-- Claim C1 (amended): the pool is configured with pool_size equal to
DATABASE_POOL_MAX and a fixed overflow allowance of exactly 10 transient
connections beyond it, so in every reachable pool state at most
DATABASE_POOL_MAX + 10 connections are outstanding; DATABASE_POOL_MIN is not
applied (connections are established lazily starting from zero). -/
theorem c1_pool_sizing {s : Settings} {r : Bool} {p : PoolState}
    (hmax : 0 ≤ s.DATABASE_POOL_MAX) (h : PoolReach (engine s) r p) :
    (engine s).pool_size = s.DATABASE_POOL_MAX ∧
    (engine s).max_overflow = 10 ∧
    p.live ≤ s.DATABASE_POOL_MAX + 10 := by
  obtain ⟨_, _, hub⟩ := poolReach_invariant h
  refine ⟨rfl, rfl, ?_⟩
  have : max ((engine s).pool_size + (engine s).max_overflow) 0 =
      s.DATABASE_POOL_MAX + 10 := by
    show max (s.DATABASE_POOL_MAX + 10) 0 = s.DATABASE_POOL_MAX + 10
    omega
  rw [this] at hub
  exact hub

/-- Witness for C1 (amended) at the default pool sizes and a fresh pool. -/
theorem c1_pool_sizing_witness :
    (engine sampleSettings).pool_size = 20 ∧
    (engine sampleSettings).max_overflow = 10 ∧
    (Pool.create (engine sampleSettings) true).live ≤ 20 + 10 := by
  have h := c1_pool_sizing (s := sampleSettings) (r := true)
    (p := Pool.create (engine sampleSettings) true) (by decide) PoolReach.create
  exact ⟨h.1, h.2.1, h.2.2⟩

/-- Claim C7: dispose is idempotent - disposing an already disposed pool is a
no-op - and acquiring from a disposed pool always fails with PoolClosedError,
never handing out a connection. -/
theorem c7_dispose_idempotent_acquire_rejected (p : PoolState) :
    Pool.dispose (Pool.dispose p) = Pool.dispose p ∧
    Pool.acquire (Pool.dispose p) = .error PoolError.poolClosed := by
  constructor
  · rfl
  · rw [Pool.acquire, if_pos]
    rfl

/-- Claim C8: creating the pool never fails and performs no handshake - the
created state holds zero connections and is the same whether or not the
database is reachable, apart from recording reachability - and the first
acquisition against an unreachable database fails with ConnectionError. -/
theorem c8_lazy_create_first_acquire {s : Settings}
    (hcap : 0 < (engine s).pool_size + (engine s).max_overflow) :
    (∀ r : Bool, (Pool.create (engine s) r).live = 0 ∧
      Pool.create (engine s) false =
        { Pool.create (engine s) true with dbReachable := false }) ∧
    Pool.acquire (Pool.create (engine s) false) = .error PoolError.connectionError := by
  refine ⟨fun r => ⟨rfl, rfl⟩, ?_⟩
  rw [Pool.acquire, if_neg (by exact Bool.false_ne_true), if_neg (by
    show ¬ ((engine s).pool_size + (engine s).max_overflow ≤ (0 : Int))
    omega)]
  rfl

/-- Witness for C8 at the default settings: capacity 30 is positive and the
first acquire against an unreachable database is a ConnectionError. -/
theorem c8_lazy_create_first_acquire_witness :
    (Pool.create (engine sampleSettings) false).live = 0 ∧
    Pool.acquire (Pool.create (engine sampleSettings) false) =
      .error PoolError.connectionError := by
  have h := c8_lazy_create_first_acquire (s := sampleSettings) (by decide)
  exact ⟨(h.1 false).1, h.2⟩

/-- A token of a migration step's SQL text: either literal text or a named
bind-parameter placeholder. -/
inductive SqlTok
  | lit (s : List Char)
  | bindParam (n : List Char)
deriving Repr, DecidableEq

/-- Whether a SQL token is literal text (no placeholder). -/
def SqlTok.isLiteral : SqlTok → Bool
  | .lit _ => true
  | .bindParam _ => false

/-- Modelled from the spec: one migration step of the ordered sequence run by
context.run_migrations() in alembic/env.py. The steps themselves (alembic
version scripts) are absent from src, so a step is modelled from spec
section 4.4: a name, its SQL template with bind parameters, the values bound
to those parameters, and whether executing it against the live database
succeeds. -/
structure MigStep where
  name : List Char
  sql : List SqlTok
  binds : List Char → List Char
  succeeds : Bool

/-- The MigrationError of the spec's error taxonomy, referencing the failing
step. -/
structure MigrationError where
  step : List Char
deriving Repr, DecidableEq

/-- Applying one successful step's schema change: record it on the schema. -/
def applyStep (st : MigStep) (schema : List (List Char)) : List (List Char) :=
  schema ++ [st.name]

/-- Modelled from the spec: context.run_migrations() - execute the ordered
steps in sequence against the working schema, stopping at the first failing
step with a MigrationError referencing it. -/
def run_migrations : List MigStep → List (List Char) →
    Except MigrationError (List (List Char))
  | [], schema => .ok schema
  | st :: rest, schema =>
    if st.succeeds then run_migrations rest (applyStep st schema)
    else .error ⟨st.name⟩

/-- The observable outcome of one online-mode run: the schema retained after
the run, how many connections were opened, how many of them came from the
long-lived service pool, how many transactions were begun, and the error if
the run aborted. -/
structure OnlineRun where
  schema : List (List Char)
  connectionsOpened : Nat
  pooledConnections : Nat
  transactionsBegun : Nat
  outcome : Option MigrationError
deriving Repr, DecidableEq

/-- Embedding of run_migrations_online with do_run_migrations of
alembic/env.py: open one transient connection (poolclass is NullPool, so no
pooled connection is used), begin one transaction, run all steps inside it;
commit the resulting schema if every step succeeded, else roll the whole
transaction back - the database keeps its initial schema - and report the
MigrationError. The transaction commit/rollback semantics follow the spec's
transactional-DDL assumption (section 4.4); they are not in src. -/
def run_migrations_online (steps : List MigStep) (db : List (List Char)) :
    OnlineRun :=
  match run_migrations steps db with
  | .ok schema => ⟨schema, 1, 0, 1, none⟩
  | .error e => ⟨db, 1, 0, 1, some e⟩

theorem run_migrations_all_ok (steps : List MigStep) (db : List (List Char))
    (h : ∀ st ∈ steps, st.succeeds = true) :
    run_migrations steps db = .ok (db ++ steps.map MigStep.name) := by
  induction steps generalizing db with
  | nil => simp [run_migrations]
  | cons st rest ih =>
    rw [run_migrations, if_pos (h st (List.mem_cons_self st rest))]
    rw [ih (applyStep st db) (fun x hx => h x (List.mem_cons_of_mem st hx))]
    simp [applyStep]

theorem run_migrations_fail (steps : List MigStep) (db : List (List Char))
    (h : ∃ st ∈ steps, st.succeeds = false) :
    ∃ st ∈ steps, st.succeeds = false ∧
      run_migrations steps db = .error ⟨st.name⟩ := by
  induction steps generalizing db with
  | nil => obtain ⟨st, hst, _⟩ := h; exact absurd hst (List.not_mem_nil st)
  | cons st rest ih =>
    by_cases hs : st.succeeds = true
    · have hrest : ∃ x ∈ rest, x.succeeds = false := by
        obtain ⟨x, hx, hxf⟩ := h
        rcases List.mem_cons.mp hx with hxs | hxr
        · rw [hxs] at hxf; rw [hs] at hxf; exact absurd hxf (by simp)
        · exact ⟨x, hxr, hxf⟩
      obtain ⟨x, hxr, hxf, hrun⟩ := ih (applyStep st db) hrest
      refine ⟨x, List.mem_cons_of_mem st hxr, hxf, ?_⟩
      rw [run_migrations, if_pos hs, hrun]
    · have hf : st.succeeds = false := Bool.eq_false_iff.mpr hs
      refine ⟨st, List.mem_cons_self st rest, hf, ?_⟩
      rw [run_migrations, if_neg (by rw [hf]; exact Bool.false_ne_true)]

/-- Claim C3: every online-mode run opens exactly one transient connection
(none from the service pool) and begins exactly one transaction; if every step
succeeds the run commits with all steps applied in order, and if any step
fails the run reports a MigrationError referencing a failing step and the
schema retains no change from any step, earlier or later. -/
theorem c3_online_transactional (steps : List MigStep) (db : List (List Char)) :
    (run_migrations_online steps db).connectionsOpened = 1 ∧
    (run_migrations_online steps db).pooledConnections = 0 ∧
    (run_migrations_online steps db).transactionsBegun = 1 ∧
    ((∀ st ∈ steps, st.succeeds = true) →
      (run_migrations_online steps db).outcome = none ∧
      (run_migrations_online steps db).schema = db ++ steps.map MigStep.name) ∧
    ((∃ st ∈ steps, st.succeeds = false) →
      (run_migrations_online steps db).schema = db ∧
      ∃ st ∈ steps, st.succeeds = false ∧
        (run_migrations_online steps db).outcome = some ⟨st.name⟩) := by
  refine ⟨?_, ?_, ?_, ?_, ?_⟩
  · rw [run_migrations_online]
    cases run_migrations steps db <;> rfl
  · rw [run_migrations_online]
    cases run_migrations steps db <;> rfl
  · rw [run_migrations_online]
    cases run_migrations steps db <;> rfl
  · intro h
    rw [run_migrations_online, run_migrations_all_ok steps db h]
    exact ⟨rfl, rfl⟩
  · intro h
    obtain ⟨st, hmem, hf, hrun⟩ := run_migrations_fail steps db h
    rw [run_migrations_online, hrun]
    exact ⟨rfl, st, hmem, hf, rfl⟩

/-- Three concrete migration steps for the spec's section 8 scenario: A
succeeds, B fails, C succeeds. -/
def stepA : MigStep := ⟨"A".toList, [.lit "CREATE TABLE a".toList], fun _ => [], true⟩

/-- The failing middle step of the scenario. -/
def stepB : MigStep := ⟨"B".toList, [.lit "CREATE TABLE b".toList], fun _ => [], false⟩

/-- The succeeding last step of the scenario. -/
def stepC : MigStep := ⟨"C".toList, [.lit "CREATE TABLE c".toList], fun _ => [], true⟩

/-- Witness for C3 at the scenario of spec section 8: steps A, B, C with B
failing - one transient connection, one transaction, the empty initial schema
is fully retained, and the error references a failing step. -/
theorem c3_online_transactional_witness :
    (run_migrations_online [stepA, stepB, stepC] []).connectionsOpened = 1 ∧
    (run_migrations_online [stepA, stepB, stepC] []).pooledConnections = 0 ∧
    (run_migrations_online [stepA, stepB, stepC] []).schema = [] ∧
    ∃ st ∈ [stepA, stepB, stepC], st.succeeds = false ∧
      (run_migrations_online [stepA, stepB, stepC] []).outcome = some ⟨st.name⟩ := by
  have h := c3_online_transactional [stepA, stepB, stepC] []
  have hfail : ∃ st ∈ [stepA, stepB, stepC], st.succeeds = false :=
    ⟨stepB, by simp, rfl⟩
  exact ⟨h.1, h.2.1, (h.2.2.2.2 hfail).1, (h.2.2.2.2 hfail).2⟩

/-- Rendering one token under context.configure of alembic/env.py's offline
branch: with literal_binds set, every bind parameter is inlined as the
literal text of its bound value; without it the placeholder survives for the
driver. Modelled from the spec: the rendering itself is alembic library code
absent from src. -/
def renderTok (binds : List Char → List Char) (literalBinds : Bool) :
    SqlTok → SqlTok
  | .lit s => .lit s
  | .bindParam n => if literalBinds then .lit (binds n) else .bindParam n

/-- Rendering a whole step's SQL under the configured bind mode. -/
def renderStep (literalBinds : Bool) (st : MigStep) : List SqlTok :=
  st.sql.map (renderTok st.binds literalBinds)

/-- The observable outcome of one offline-mode run: how many connections were
opened and the SQL text emitted for each step. -/
structure OfflineRun where
  connectionsOpened : Nat
  output : List (List SqlTok)
deriving Repr, DecidableEq

/-- Embedding of run_migrations_offline of alembic/env.py: configure with the
URL only and literal_binds set to True, then render every step to SQL text in
order; no connection object exists anywhere in this branch, so zero
connections are opened. -/
def run_migrations_offline (steps : List MigStep) : OfflineRun :=
  ⟨0, steps.map (renderStep true)⟩

/-- Claim C4: an offline-mode run opens zero network connections, and every
token of every rendered migration statement is literal text - no
bind-parameter placeholder survives rendering. -/
theorem c4_offline_no_connection_literal_sql (steps : List MigStep) :
    (run_migrations_offline steps).connectionsOpened = 0 ∧
    (∀ stmt ∈ (run_migrations_offline steps).output,
      ∀ tok ∈ stmt, tok.isLiteral = true) := by
  refine ⟨rfl, ?_⟩
  intro stmt hstmt tok htok
  rw [run_migrations_offline] at hstmt
  obtain ⟨st, _, hst⟩ := List.mem_map.mp hstmt
  rw [← hst] at htok
  obtain ⟨t, _, ht⟩ := List.mem_map.mp htok
  rw [← ht]
  cases t with
  | lit s => rfl
  | bindParam n => rw [renderTok, if_pos rfl]; rfl

/-- A migration step whose SQL contains a named bind parameter, for the C4
witness. -/
def stepWithBind : MigStep :=
  ⟨"D".toList,
   [.lit "INSERT INTO t VALUES (".toList, .bindParam "v".toList, .lit ")".toList],
   fun _ => "42".toList, true⟩

/-- Witness for C4: the offline run over a step with a bind parameter opens
zero connections and the parameter is rendered as the literal token of its
bound value. -/
theorem c4_offline_no_connection_literal_sql_witness :
    (run_migrations_offline [stepWithBind]).connectionsOpened = 0 ∧
    (SqlTok.lit "42".toList).isLiteral = true := by
  have h := c4_offline_no_connection_literal_sql [stepWithBind]
  refine ⟨h.1, ?_⟩
  have hmem : renderStep true stepWithBind ∈ (run_migrations_offline [stepWithBind]).output := by
    rw [run_migrations_offline]
    exact List.mem_map.mpr ⟨stepWithBind, List.mem_cons_self _ _, rfl⟩
  have htok : SqlTok.lit "42".toList ∈ renderStep true stepWithBind := by
    rw [renderStep, stepWithBind]
    simp [renderTok]
  exact h.2 (renderStep true stepWithBind) hmem (SqlTok.lit "42".toList) htok

/-- The outcome of the database probe made by a health handler: either the
session plus the trivial SELECT 1 round-trip succeeds, or it raises an
exception whose message (Python str(e)) is carried here. -/
inductive DbProbe
  | ok
  | fail (msg : List Char)
deriving Repr, DecidableEq

/-- The observable HTTP response of a handler: the status code FastAPI sends
(200 for a plain dict return) and the body fields used by main.py. -/
structure HttpResponse where
  statusCode : Nat
  status : List Char
  database : Option (List Char)
  errMsg : Option (List Char)
deriving Repr, DecidableEq

/-- Embedding of health_check of app/main.py together with the number of
database round-trips it makes: the handler body is a constant dict return, so
the response is the same for every database state and zero round-trips
happen. -/
def health_check (_db : DbProbe) : HttpResponse × Nat :=
  (⟨200, "healthy".toList, none, none⟩, 0)

/-- Embedding of health_check_db of app/main.py: one session plus SELECT 1 is
attempted (one round-trip); on success the dict is status healthy, database
connected; on any exception the handler catches it and returns status
unhealthy, database disconnected, error str(e) - still as a plain dict, so
still HTTP 200. -/
def health_check_db (db : DbProbe) : HttpResponse × Nat :=
  match db with
  | .ok => (⟨200, "healthy".toList, some "connected".toList, none⟩, 1)
  | .fail msg => (⟨200, "unhealthy".toList, some "disconnected".toList, some msg⟩, 1)

/-- Claim C6: health_check returns status healthy for every database state,
and never touches the database (zero round-trips). -/
theorem c6_health_liveness_only (db : DbProbe) :
    (health_check db).1.statusCode = 200 ∧
    (health_check db).1.status = "healthy".toList ∧
    (health_check db).2 = 0 := by
  exact ⟨rfl, rfl, rfl⟩

/-- Witness for C6 at a concrete database state (database down). -/
theorem c6_health_liveness_only_witness :
    (health_check (DbProbe.fail "down".toList)).1.status = "healthy".toList ∧
    (health_check (DbProbe.fail "down".toList)).2 = 0 := by
  have h := c6_health_liveness_only (DbProbe.fail "down".toList)
  exact ⟨h.2.1, h.2.2⟩

/-- Counterexample to C5 as stated: the handler forwards the exception's
message verbatim, so a failure whose exception message is empty yields an
empty error field - not the non-empty message the claim requires on any
failure. -/
theorem c5_empty_error_counterexample :
    (health_check_db (DbProbe.fail [])).1.errMsg = some [] ∧
    ¬ ∃ m : List Char, (health_check_db (DbProbe.fail [])).1.errMsg = some m ∧
      m ≠ [] := by
  refine ⟨rfl, ?_⟩
  rintro ⟨m, hm, hne⟩
  rw [show (health_check_db (DbProbe.fail [])).1.errMsg = some [] from rfl] at hm
  exact hne (Option.some.inj hm).symm

/-- Claim C5 (amended): health_check_db returns HTTP 200 on every outcome; on
success the body is status healthy, database connected; on any failure the
body is status unhealthy, database disconnected, with the error field
carrying exactly the exception's message (non-empty whenever that message is
non-empty) - the handler never propagates the error as a failure status
code. -/
theorem c5_health_db_always_200 (db : DbProbe) :
    (health_check_db db).1.statusCode = 200 ∧
    (db = DbProbe.ok →
      (health_check_db db).1.status = "healthy".toList ∧
      (health_check_db db).1.database = some "connected".toList ∧
      (health_check_db db).1.errMsg = none) ∧
    (∀ msg : List Char, db = DbProbe.fail msg →
      (health_check_db db).1.status = "unhealthy".toList ∧
      (health_check_db db).1.database = some "disconnected".toList ∧
      (health_check_db db).1.errMsg = some msg) := by
  cases db with
  | ok =>
    refine ⟨rfl, fun _ => ⟨rfl, rfl, rfl⟩, ?_⟩
    intro msg hmsg
    exact absurd hmsg (by simp)
  | fail m =>
    refine ⟨rfl, fun hok => absurd hok (by simp), ?_⟩
    intro msg hmsg
    have : m = msg := by
      cases hmsg
      rfl
    subst this
    exact ⟨rfl, rfl, rfl⟩

/-- Witness for C5 (amended) at a failure with a concrete non-empty message:
HTTP 200 with the unhealthy body carrying that message. -/
theorem c5_health_db_always_200_witness :
    (health_check_db (DbProbe.fail "timeout".toList)).1.statusCode = 200 ∧
    (health_check_db (DbProbe.fail "timeout".toList)).1.status = "unhealthy".toList ∧
    (health_check_db (DbProbe.fail "timeout".toList)).1.errMsg =
      some "timeout".toList := by
  have h := c5_health_db_always_200 (DbProbe.fail "timeout".toList)
  have hf := h.2.2 "timeout".toList rfl
  exact ⟨h.1, hf.1, hf.2.2⟩

/-- Embedding of the Alembic Config object as used by alembic/env.py: the
only option the file touches is sqlalchemy.url. -/
structure AlembicConfig where
  sqlalchemy_url : List Char
deriving Repr, DecidableEq

/-- Embedding of config.set_main_option for the sqlalchemy.url key. -/
def set_main_option (c : AlembicConfig) (url : List Char) : AlembicConfig :=
  { c with sqlalchemy_url := url }

/-- Embedding of config.get_main_option for the sqlalchemy.url key. -/
def get_main_option (c : AlembicConfig) : List Char :=
  c.sqlalchemy_url

/-- Embedding of the module-level line of alembic/env.py that sets the URL:
config.set_main_option with settings.DATABASE_URL. -/
def envConfig (s : Settings) (c0 : AlembicConfig) : AlembicConfig :=
  set_main_option c0 s.DATABASE_URL

/-- The target URL of the offline branch of alembic/env.py: it reads
sqlalchemy.url back from the config. -/
def offlineMigrationUrl (s : Settings) (c0 : AlembicConfig) : List Char :=
  get_main_option (envConfig s c0)

/-- The target URL of the online branch of alembic/env.py: the configuration
section's sqlalchemy.url entry is overwritten with settings.DATABASE_URL just
before async_engine_from_config reads it. -/
def onlineMigrationUrl (s : Settings) : List Char :=
  s.DATABASE_URL

/-- Claim C9: both migration modes target the raw DATABASE_URL exactly, never
the derived async-qualified URL - and for every plain-scheme URL the two
genuinely differ, so the migration runner is not using the pool's URL. -/
theorem c9_migrations_use_raw_url (s : Settings) (c0 : AlembicConfig) :
    offlineMigrationUrl s c0 = s.DATABASE_URL ∧
    onlineMigrationUrl s = s.DATABASE_URL ∧
    (∀ rest : List Char, s.DATABASE_URL = pgScheme ++ rest →
      offlineMigrationUrl s c0 ≠ database_url_async s) := by
  refine ⟨rfl, rfl, ?_⟩
  intro rest hurl heq
  rw [show offlineMigrationUrl s c0 = s.DATABASE_URL from rfl, hurl,
    database_url_async, hurl, asyncUrlTransform_of_pg] at heq
  have hlen := congrArg List.length heq
  rw [List.length_append, List.length_append] at hlen
  have h13 : pgScheme.length = 13 := by decide
  have h21 : pgAsyncScheme.length = 21 := by decide
  rw [h13, h21] at hlen
  omega

/-- Witness for C9 at sampleSettings: the migration target is the raw
plain-scheme URL and differs from the async-qualified URL of the pool. -/
theorem c9_migrations_use_raw_url_witness :
    offlineMigrationUrl sampleSettings ⟨[]⟩ = sampleSettings.DATABASE_URL ∧
    onlineMigrationUrl sampleSettings = sampleSettings.DATABASE_URL ∧
    offlineMigrationUrl sampleSettings ⟨[]⟩ ≠ database_url_async sampleSettings := by
  have h := c9_migrations_use_raw_url sampleSettings ⟨[]⟩
  exact ⟨h.1, h.2.1, h.2.2 "localhost/expenses".toList (by decide)⟩
